import Mathlib

/-!
Verification of the `rfcaf` interactive console (src/src/lib.rs).

The console sources commands either from a terminal or from a pre-loaded
automation file, guarded by a five-state machine, and walks a two-level
instruction/sub-command tree with a cycle count.  This file is a shallow
embedding of the console state and its operations: external collaborators
(terminal line input, filesystem reads, the structured-format parser and the
logging sink) are passed in as explicit arguments; everything else follows
the Rust source line by line.
-/

namespace Rfcaf

/-- `GenericCmd` (src/src/lib.rs lines 29-34): a file command value is either
a number (`usize`) or a text string. -/
inductive GenericCmd where
  | number (n : Nat)
  | character (s : String)
deriving DecidableEq, Repr

/-- `ConsoleStatus` (src/src/lib.rs lines 37-46), keeping the source's
spelling `Invaild`. -/
inductive ConsoleStatus where
  | insAcqFromFile
  | insAcqFromTerminal
  | insExecFromFile
  | insExecFromTerminal
  | invaild
deriving DecidableEq, Repr

/-- `ValidCheck` (src/src/lib.rs lines 48-53). -/
structure ValidCheck where
  read_valid : Bool
  import_valid : Bool
  file_valid : Bool
deriving DecidableEq, Repr

/-- `ConsolePrompt` (src/src/lib.rs lines 56-60), keeping the source's
spelling `mian_prompt`. -/
structure ConsolePrompt where
  mian_prompt : String
  sub_prompt : String
deriving DecidableEq, Repr

/-- `SubCmd` (src/src/lib.rs lines 80-83). -/
structure SubCmd where
  sub_cmd : GenericCmd
deriving DecidableEq, Repr

/-- `ExecuteAssets` (src/src/lib.rs lines 74-78): one instruction together
with its optional list of sub-commands. -/
structure ExecuteAssets where
  exc_ins : GenericCmd
  sub_cmd_assets : Option (List SubCmd)
deriving DecidableEq, Repr

/-- `ExecuteFile` (src/src/lib.rs lines 63-72): the automation tree, cycle
count and the two cursor fields. -/
structure ExecuteFile where
  file_address : Option String
  exc_ins_assets : List ExecuteAssets
  cycle_times : Option Nat
  next_exc_ins : Option (Nat × GenericCmd)
  next_exc_cmd : Option (Nat × GenericCmd)
deriving DecidableEq, Repr

/-- `Status` (src/src/lib.rs lines 85-89). -/
structure Status where
  current : ConsoleStatus
  previous : ConsoleStatus
deriving DecidableEq, Repr

/-- `DataError` (src/src/lib.rs lines 16-26).  `other` stands for the
wrapped `io::Error` of the `Other` variant (its payload plays no role in
any claim). -/
inductive DataError where
  | other
  | redaction (msg : String)
  | invalidHeader (expected found : String)
  | unknown
deriving DecidableEq, Repr

/-- `Console` (src/src/lib.rs lines 91-107).  The logging collaborator and
the fixed `_input_invalid` message are external and carry no state the
claims depend on, so they are not part of the embedded state. -/
structure Console where
  status : Status
  check : ValidCheck
  interact : ConsolePrompt
  auto_exc : ExecuteFile
  current_ins : Option String
  current_cmd : Option String
deriving DecidableEq, Repr

/-- Textual form of a `GenericCmd`, as produced by the repeated
`match cmd { Number(v) => v.to_string(), Character(v) => v }` blocks. -/
def GenericCmd.text : GenericCmd → String
  | .number n => toString n
  | .character s => s

/-- `Console::new` (src/src/lib.rs lines 113-152), minus the logger. -/
def Console.new : Console :=
  { status := { current := .invaild, previous := .invaild }
    check := { read_valid := false, import_valid := false, file_valid := false }
    interact := { mian_prompt := "> ", sub_prompt := "" }
    auto_exc := { file_address := none, exc_ins_assets := [], cycle_times := none,
                  next_exc_ins := none, next_exc_cmd := none }
    current_ins := none
    current_cmd := none }

/-- `Console::input_parse` (src/src/lib.rs lines 165-168): strip trailing
carriage returns and newlines (`trim_end_matches(&['\r','\n'])`). -/
def input_parse (input : String) : String :=
  String.mk (List.reverse ((List.reverse input.data).dropWhile
    (fun c => c = '\r' || c = '\n')))

/-- The character whitelist of `Console::input_check` (src/src/lib.rs lines
172-180).  Rust's Unicode `char::is_alphanumeric` is embedded as
`Char.isAlphanum`; no claim depends on non-ASCII alphanumerics. -/
def allowed_char (c : Char) : Bool :=
  c.isAlphanum || c = '.' || c = '+' || c = '-' || c = '|' || c = '@' || c = ' '

/-- `Console::input_check` (src/src/lib.rs lines 171-189).  The function
reads no console state, so it is embedded as a pure function of the input
string. -/
def input_check (input : String) : Except DataError Bool :=
  if !(input.data.all allowed_char) || input = "" then
    .error (.invalidHeader "specified command characters" "invalid characters")
  else
    .ok true

/-- `Console::prompt_clear` (src/src/lib.rs lines 617-620). -/
def prompt_clear (c : Console) : Console :=
  { c with interact := { mian_prompt := "> ", sub_prompt := "" } }

/-- `Console::exc_clear` (src/src/lib.rs lines 622-628). -/
def exc_clear (c : Console) : Console :=
  { c with auto_exc := { file_address := none, exc_ins_assets := [],
                         cycle_times := none, next_exc_cmd := none,
                         next_exc_ins := none } }

/-- `Console::check_reset` (src/src/lib.rs lines 630-634). -/
def check_reset (c : Console) : Console :=
  { c with check := { file_valid := false, import_valid := false,
                      read_valid := false } }

/-- Error message of the seed-failure path of `file_poll` (src/src/lib.rs
lines 332-334, 382-384, 434-436). -/
def err_seed_fail : String :=
  "获取第一条主指令集失败，文件导入的指令集内容被污染，请重新导入文件。"

/-- Error message of the command-without-instruction paths of `file_poll`
(src/src/lib.rs lines 339-341, 449-451). -/
def err_ins_lost : String :=
  "子命令的主指令意外丢失，请重新导入文件开始测试。"

/-- Error message of the out-of-range instruction path of `file_poll`
(src/src/lib.rs lines 391-393). -/
def err_ins_read_fail : String :=
  "读取指定主指令集失败，请重新导入文件开始测试。"

/-- Error message of the missing sub-command-set path of `file_poll`
(src/src/lib.rs lines 443-445). -/
def err_sub_lost : String :=
  "指定主指令集的子命令集意外丢失，请重新导入文件开始测试。"

/-- The cycle-judgment block of `file_poll`, duplicated verbatim in the
source at lines 366-387 and 418-438: decrement `cycle_times` when present
(Rust `usize` subtraction embedded as `Nat` subtraction; claim C10 treats
the underflow question separately) and reseed the instruction cursor to the
head of the tree when the decremented count is non-zero. -/
def cycle_judgment (c : Console) : Console × Option DataError :=
  let dec : Console × Nat :=
    match c.auto_exc.cycle_times with
    | some cycle_times =>
        ({ c with auto_exc := { c.auto_exc with cycle_times := some (cycle_times - 1) } },
         cycle_times - 1)
    | none => (c, 0)
  if dec.2 ≠ 0 then
    match dec.1.auto_exc.exc_ins_assets.get? 0 with
    | some exc_assets =>
        ({ dec.1 with auto_exc := { dec.1.auto_exc with
            next_exc_ins := some (0, exc_assets.exc_ins) } }, none)
    | none => (exc_clear dec.1, some (.redaction err_seed_fail))
  else
    (dec.1, none)

/-- The cursor-advance part of `Console::file_poll` (src/src/lib.rs lines
325-456): everything before the final return-value computation.  `none` in
the second component means control fell through to the return-value
computation; `some e` means an early `return Err(e)`. -/
def file_poll_advance (c : Console) : Console × Option DataError :=
  match c.auto_exc.next_exc_ins with
  | none =>
    match c.auto_exc.next_exc_cmd with
    | none =>
      match c.auto_exc.exc_ins_assets.get? 0 with
      | some exc_assets =>
          ({ c with auto_exc := { c.auto_exc with
              next_exc_ins := some (0, exc_assets.exc_ins) } }, none)
      | none => (exc_clear c, some (.redaction err_seed_fail))
    | some _ => (exc_clear c, some (.redaction err_ins_lost))
  | some (ins_index, _) =>
    match c.auto_exc.next_exc_cmd with
    | none =>
      match c.auto_exc.exc_ins_assets.get? ins_index with
      | some exc_assets =>
        match exc_assets.sub_cmd_assets with
        | some sub_cmd_assets =>
          match sub_cmd_assets.get? 0 with
          | some cmd =>
              ({ c with auto_exc := { c.auto_exc with
                  next_exc_cmd := some (0, cmd.sub_cmd) } }, none)
          | none => (c, none)
        | none =>
          match c.auto_exc.exc_ins_assets.get? (ins_index + 1) with
          | some exc_assets2 =>
              ({ c with auto_exc := { c.auto_exc with
                  next_exc_ins := some (ins_index + 1, exc_assets2.exc_ins) } }, none)
          | none =>
              cycle_judgment
                { c with auto_exc := { c.auto_exc with next_exc_ins := none } }
      | none => (exc_clear c, some (.redaction err_ins_read_fail))
    | some (cmd_index, _) =>
      match c.auto_exc.exc_ins_assets.get? ins_index with
      | some exc_assets =>
        match exc_assets.sub_cmd_assets with
        | some sub_cmd_assets =>
          match sub_cmd_assets.get? (cmd_index + 1) with
          | some cmd =>
              ({ c with auto_exc := { c.auto_exc with
                  next_exc_cmd := some (cmd_index + 1, cmd.sub_cmd) } }, none)
          | none =>
            match c.auto_exc.exc_ins_assets.get? (ins_index + 1) with
            | some exc_assets2 =>
                ({ c with auto_exc := { c.auto_exc with
                    next_exc_ins := some (ins_index + 1, exc_assets2.exc_ins) } }, none)
            | none =>
                cycle_judgment
                  { c with auto_exc := { c.auto_exc with
                      next_exc_ins := none, next_exc_cmd := none } }
        | none => (exc_clear c, some (.redaction err_sub_lost))
      | none => (exc_clear c, some (.redaction err_ins_lost))

/-- `Console::file_poll` (src/src/lib.rs lines 324-473): advance the cursor,
then return the textual form of the sub-command cursor if non-empty, else of
the instruction cursor, else `DataError::Unknown`. -/
def file_poll (c : Console) : Console × Except DataError String :=
  match file_poll_advance c with
  | (c1, some e) => (c1, .error e)
  | (c1, none) =>
    match c1.auto_exc.next_exc_cmd with
    | some (_, cmd) => (c1, .ok cmd.text)
    | none =>
      match c1.auto_exc.next_exc_ins with
      | some (_, cmd) => (c1, .ok cmd.text)
      | none => (c1, .error .unknown)

/-- `Console::terminal_read` (src/src/lib.rs lines 192-227).  The external
terminal collaborator is passed in as `io_line`: `some line` is a successful
`read_line`, `none` an I/O failure.  Logging is external and stateless. -/
def terminal_read (c : Console) (io_line : Option String) :
    Console × Except DataError String :=
  match io_line with
  | none => (c, .error (.invalidHeader "terminal input" "invalid input"))
  | some raw =>
    let input := input_parse raw
    match input_check input with
    | .error e => (c, .error e)
    | .ok b =>
      let c1 := { c with check := { c.check with read_valid := b } }
      let c2 :=
        match c1.status.current with
        | .insAcqFromTerminal => { c1 with current_ins := some input }
        | _ => { c1 with current_cmd := some input }
      let c3 := { c2 with interact := { c2.interact with
                    sub_prompt := c2.interact.sub_prompt ++ input ++ " > " } }
      (c3, .ok input)

/-- The cursor node `file_read` consumes (src/src/lib.rs lines 231-236): the
instruction cursor in `InsAcqFromFile` status, the sub-command cursor
otherwise. -/
def read_cursor (c : Console) : Option (Nat × GenericCmd) :=
  match c.status.current with
  | .insAcqFromFile => c.auto_exc.next_exc_ins
  | _ => c.auto_exc.next_exc_cmd

/-- `Console::file_read` (src/src/lib.rs lines 230-273): read the cursor
node (instruction cursor in `InsAcqFromFile` status, sub-command cursor
otherwise), advance the cursor with `file_poll` discarding its result, then
validate and store the text. -/
def file_read (c : Console) : Console × Except DataError String :=
  match read_cursor c with
  | none => (c, .error (.redaction "no executable instructions or commands."))
  | some (_, g) =>
    let c1 := (file_poll c).1
    let input := input_parse g.text
    match input_check input with
    | .error e => (c1, .error e)
    | .ok b =>
      let c2 := { c1 with check := { c1.check with read_valid := b } }
      let c3 :=
        match c2.status.current with
        | .insAcqFromTerminal => { c2 with current_ins := some input }
        | _ => { c2 with current_cmd := some input }
      let c4 := { c3 with interact := { c3.interact with
                    mian_prompt := c3.interact.mian_prompt ++ input ++ " > " } }
      (c4, .ok input)

/-- The first pass of `Console::refresh` (src/src/lib.rs lines 549-594): the
raw next status computed by the transition match, together with the console
as mutated by the `prompt_clear` side effects inside the match arms. -/
def refresh_raw (c : Console) : Console × ConsoleStatus :=
  match c.status.current with
  | .invaild => (c, .insAcqFromTerminal)
  | .insAcqFromFile =>
    match c.auto_exc.next_exc_cmd with
    | some _ => (c, .insExecFromFile)
    | none =>
      match c.auto_exc.next_exc_ins with
      | some _ => (prompt_clear c, .insAcqFromFile)
      | none => (c, .invaild)
  | .insAcqFromTerminal =>
    match c.check.read_valid with
    | true => (c, .insExecFromTerminal)
    | false => (c, .invaild)
  | .insExecFromFile =>
    match c.auto_exc.next_exc_cmd with
    | some _ => (c, .insExecFromFile)
    | none =>
      match c.auto_exc.next_exc_ins with
      | some _ => (prompt_clear c, .insAcqFromFile)
      | none => (c, .invaild)
  | .insExecFromTerminal =>
    match c.check.read_valid with
    | true =>
      match c.check.file_valid with
      | true =>
        match c.auto_exc.next_exc_ins with
        | some _ => (prompt_clear c, .insAcqFromFile)
        | none => (c, .invaild)
      | false => (c, .insExecFromTerminal)
    | false => (c, .invaild)

/-- `Console::refresh` (src/src/lib.rs lines 548-614): compute the raw next
status, then convert a raw `Invaild` result into `InsAcqFromTerminal` with a
prompt reset, and finally reset the validity flags.  The state-change
banner is logging only.  The Rust function always returns `Ok(())`, so no
error component is modelled. -/
def refresh (c : Console) : Console :=
  let r := refresh_raw c
  let c1 := { r.1 with status := { current := r.2, previous := c.status.current } }
  let c2 :=
    match c1.status.current with
    | .invaild =>
      { prompt_clear c1 with status := { current := .insAcqFromTerminal,
                                         previous := c1.status.current } }
    | _ => c1
  check_reset c2

/-- `Console::setup` (src/src/lib.rs lines 155-157). -/
def setup (c : Console) : Console :=
  refresh c

/-- `Console::taildowm` (src/src/lib.rs lines 160-162), keeping the source's
spelling. -/
def taildowm (c : Console) : Console :=
  refresh c

/-- `Console::read` (src/src/lib.rs lines 475-525): dispatch on the current
status to the terminal or file source, refresh the state machine, and pass
the read result through.  The prompt echo at the top is logging only.
`io_line` is the terminal collaborator's line, used only on the terminal
path. -/
def read (c : Console) (io_line : Option String) :
    Console × Except DataError String :=
  match c.status.current with
  | .insAcqFromTerminal | .insExecFromTerminal =>
    let r := terminal_read c io_line
    (refresh r.1, r.2)
  | .insAcqFromFile | .insExecFromFile =>
    let r := file_read c
    (refresh r.1, r.2)
  | .invaild =>
    (refresh c, .error (.invalidHeader "determined console status" "invalid status"))

/-- The schema-hint error message returned by `file_import` on a parse
failure (src/src/lib.rs lines 286-292), with `format!`'s separators. -/
def err_malformed : String :=
  "文件内容格式有误，检查文件内容是否满足： " ++
  "- 文件涉及测试组 执行次数 <可选，若未输入默认执行一次>  " ++
  "- 单次测试 主指令 <必须>  " ++
  "- 单次测试 子命令/子命令集 <可选>"

/-- `Console::file_import` (src/src/lib.rs lines 275-303).  External
collaborators are passed in: `io_line` feeds the terminal read that acquires
the file address, `fs_content` is the filesystem collaborator's result
(`none` = I/O failure, mapped to `DataError::Other`), and `parse` is the
structured-format collaborator (`toml::from_str`), which on success replaces
the whole `auto_exc` struct. -/
def file_import (c : Console) (io_line : Option String)
    (fs_content : Option String) (parse : String → Option ExecuteFile) :
    Console × Except DataError Unit :=
  let c0 := exc_clear c
  match read c0 io_line with
  | (c1, .error e) => (c1, .error e)
  | (c1, .ok addr) =>
    let c2 := { c1 with auto_exc := { c1.auto_exc with file_address := some addr } }
    let c3 := { c2 with check := { c2.check with read_valid := true, file_valid := true } }
    match fs_content with
    | none => (c3, .error .other)
    | some context =>
      match parse context with
      | none => (c3, .error (.redaction err_malformed))
      | some parsed =>
        let c4 := { c3 with auto_exc := parsed }
        match file_poll c4 with
        | (c5, .error e) => (c5, .error e)
        | (c5, .ok _) =>
          let c6 := { c5 with check := { c5.check with import_valid := true } }
          (refresh c6, .ok ())

/-- Iterate `file_poll`, keeping the console and discarding results, as the
`let _ = self.file_poll()` call sites do. -/
def poll_iter (c : Console) : Nat → Console
  | 0 => c
  | n + 1 => poll_iter (file_poll c).1 n

/-- The results of the first `n` successive `file_poll` calls. -/
def poll_results (c : Console) : Nat → List (Except DataError String)
  | 0 => []
  | n + 1 => (file_poll c).2 :: poll_results (file_poll c).1 n

/-- The automation tree of spec §8's poll-sequence property: instructions
`[A, B]`, `A` with sub-commands `[a1, a2]`, `B` with none. -/
def c1Tree : List ExecuteAssets :=
  [ { exc_ins := .character "A",
      sub_cmd_assets := some [{ sub_cmd := .character "a1" },
                              { sub_cmd := .character "a2" }] },
    { exc_ins := .character "B", sub_cmd_assets := none } ]

/-- A freshly created console loaded with `c1Tree` and `cycle_times = 2`,
cursor empty. -/
def c1Console : Console :=
  { Console.new with auto_exc := { Console.new.auto_exc with
      exc_ins_assets := c1Tree, cycle_times := some 2 } }

/-- A console over `c1Tree` whose cursors point at instruction 0 (`A`) and
sub-command 1 (`a2`): the last sub-command of `A`, with instruction `B`
following — the configuration of claim C2. -/
def c2Console : Console :=
  { c1Console with auto_exc := { c1Console.auto_exc with
      next_exc_ins := some (0, .character "A"),
      next_exc_cmd := some (1, .character "a2") } }

/-- A console in `InsAcqFromFile` status whose instruction cursor points at
the single instruction `A` of a one-instruction tree — the configuration of
claim C4's file-read case. -/
def c4Console : Console :=
  { Console.new with
      status := { current := .insAcqFromFile, previous := .invaild }
      auto_exc := { Console.new.auto_exc with
        exc_ins_assets := [{ exc_ins := .character "A", sub_cmd_assets := none }],
        next_exc_ins := some (0, .character "A") } }

/-- The exact condition under which `file_poll` reaches one of its two
`cycle_times - 1` subtraction sites (src/src/lib.rs lines 366-373 and
418-425): the instruction cursor is set, the addressed instruction exists,
its sub-command supply is exhausted at the current position, and there is no
following instruction. -/
def cycle_dec_reached (e : ExecuteFile) : Bool :=
  match e.next_exc_ins, e.next_exc_cmd with
  | some (i, _), none =>
    match e.exc_ins_assets.get? i with
    | some exc_assets =>
        exc_assets.sub_cmd_assets.isNone && (e.exc_ins_assets.get? (i + 1)).isNone
    | none => false
  | some (i, _), some (j, _) =>
    match e.exc_ins_assets.get? i with
    | some exc_assets =>
      match exc_assets.sub_cmd_assets with
      | some sub_cmd_assets =>
          (sub_cmd_assets.get? (j + 1)).isNone && (e.exc_ins_assets.get? (i + 1)).isNone
      | none => false
    | none => false
  | _, _ => false

/-- `file_poll` performs an underflowing `usize` subtraction exactly when a
subtraction site is reached with `cycle_times = Some(0)`. -/
def file_poll_underflows (e : ExecuteFile) : Bool :=
  cycle_dec_reached e && e.cycle_times == some 0

/-- The cursor invariant of spec §3: the sub-command cursor is `Some` only
when the instruction cursor is also `Some`. -/
def cursor_inv (e : ExecuteFile) : Bool :=
  !e.next_exc_cmd.isSome || e.next_exc_ins.isSome

/-- A console whose cursor violates the invariant: a sub-command cursor
without an instruction cursor — the corruption configuration of claim C9. -/
def c9BadConsole : Console :=
  { c1Console with auto_exc := { c1Console.auto_exc with
      next_exc_ins := none,
      next_exc_cmd := some (0, .character "a1") } }

/-- The fully cleared automation struct produced by `exc_clear`. -/
def cleared_exc : ExecuteFile :=
  { file_address := none, exc_ins_assets := [], cycle_times := none,
    next_exc_ins := none, next_exc_cmd := none }

/-- The non-automation part of the console state: everything except
`auto_exc`, used to state that `file_poll` only mutates the automation
struct. -/
def non_exc (c : Console) :
    Status × ValidCheck × ConsolePrompt × Option String × Option String :=
  (c.status, c.check, c.interact, c.current_ins, c.current_cmd)

/-- A console whose tree is the single sub-command-free instruction `B`
with `cycle_times = 1`, cursor parked on that instruction: the next poll
reaches the cycle-judgment subtraction — the configuration of claim C10's
witness. -/
def c10Console : Console :=
  { Console.new with auto_exc := { Console.new.auto_exc with
      exc_ins_assets := [{ exc_ins := .character "B", sub_cmd_assets := none }],
      cycle_times := some 1,
      next_exc_ins := some (0, .character "B") } }

/-- A console in `InsExecFromTerminal` status, the state from which
`file_import` is invoked in the example driver — used by claim C8's
witness. -/
def c8Console : Console :=
  { Console.new with status := { current := .insExecFromTerminal,
                                 previous := .invaild } }

/-- A parsed automation file with the single instruction `A` and no
sub-commands, cursors empty — claim C8's witness tree. -/
def c8File : ExecuteFile :=
  { file_address := none,
    exc_ins_assets := [{ exc_ins := .character "A", sub_cmd_assets := none }],
    cycle_times := none, next_exc_ins := none, next_exc_cmd := none }

/-!
Helper lemmas shared by the claim theorems.
-/

theorem cycle_judgment_non_exc (c : Console) :
    non_exc (cycle_judgment c).1 = non_exc c := by
  unfold cycle_judgment
  cases hct : c.auto_exc.cycle_times with
  | none => simp [hct, non_exc]
  | some t =>
    simp only [hct]
    by_cases ht : t - 1 = 0
    · simp [ht, non_exc]
    · cases hg : c.auto_exc.exc_ins_assets[0]? <;>
        simp [hg, non_exc, exc_clear, ht]

theorem refresh_auto_exc (c : Console) : (refresh c).auto_exc = c.auto_exc := by
  obtain ⟨⟨cur, prev⟩, ⟨rv, iv, fv⟩, inter, ⟨fa, assets, ct, nei, nec⟩, ci, cc⟩ := c
  cases cur <;> cases nei <;> cases nec <;> cases rv <;> cases fv <;> rfl

theorem terminal_read_auto_exc (c : Console) (io_line : Option String) :
    ((terminal_read c io_line).1).auto_exc = c.auto_exc := by
  unfold terminal_read
  cases io_line with
  | none => rfl
  | some raw =>
    cases h : input_check (input_parse raw) with
    | error e => simp [h]
    | ok b => cases hcur : c.status.current <;> simp [h, hcur]

theorem file_poll_fst (c : Console) :
    (file_poll c).1 = (file_poll_advance c).1 := by
  unfold file_poll
  rcases h : file_poll_advance c with ⟨c1, e⟩
  cases e with
  | some e => rfl
  | none =>
    cases h2 : c1.auto_exc.next_exc_cmd with
    | some v => simp [h2]
    | none => cases h3 : c1.auto_exc.next_exc_ins <;> simp [h2, h3]

theorem cycle_judgment_cursor_inv (c : Console)
    (h : c.auto_exc.next_exc_cmd = none) :
    cursor_inv ((cycle_judgment c).1).auto_exc = true := by
  unfold cycle_judgment
  cases hct : c.auto_exc.cycle_times with
  | none => simp [hct, cursor_inv, h]
  | some t =>
    simp only [hct]
    by_cases ht : t - 1 = 0
    · simp [ht, cursor_inv, h]
    · cases hg : c.auto_exc.exc_ins_assets[0]? <;>
        simp [hg, cursor_inv, exc_clear, h, ht]

theorem file_poll_advance_cursor_inv (c : Console) :
    cursor_inv ((file_poll_advance c).1).auto_exc = true := by
  unfold file_poll_advance
  repeat' split
  all_goals
    first
    | exact cycle_judgment_cursor_inv _ (by simp_all)
    | simp_all [cursor_inv, exc_clear]

theorem file_poll_cursor_inv (c : Console) :
    cursor_inv ((file_poll c).1).auto_exc = true := by
  rw [file_poll_fst]
  exact file_poll_advance_cursor_inv c

theorem file_read_auto_exc (c : Console) :
    ((file_read c).1).auto_exc = c.auto_exc ∨
    ((file_read c).1).auto_exc = ((file_poll c).1).auto_exc := by
  unfold file_read
  cases hst : c.status.current <;> simp only [hst]
  all_goals
    split
    case _ => exact Or.inl rfl
    case _ =>
      split
      case _ => exact Or.inr rfl
      case _ =>
        split <;> exact Or.inr rfl

theorem read_auto_exc_or (c : Console) (io_line : Option String) :
    ((read c io_line).1).auto_exc = c.auto_exc ∨
    ((read c io_line).1).auto_exc = ((file_poll c).1).auto_exc := by
  unfold read
  cases hst : c.status.current
  case insAcqFromTerminal | insExecFromTerminal =>
    left
    simp [refresh_auto_exc, terminal_read_auto_exc]
  case insAcqFromFile | insExecFromFile =>
    rcases file_read_auto_exc c with h | h <;> [left; right] <;>
      simp [refresh_auto_exc, h]
  case invaild =>
    left
    simp [refresh_auto_exc]

theorem read_cursor_inv (c : Console) (io_line : Option String)
    (h : cursor_inv c.auto_exc = true) :
    cursor_inv ((read c io_line).1).auto_exc = true := by
  rcases read_auto_exc_or c io_line with h2 | h2 <;> rw [h2]
  · exact h
  · exact file_poll_cursor_inv c

theorem read_cleared (c : Console) (io_line : Option String)
    (h : c.auto_exc = cleared_exc) :
    ((read c io_line).1).auto_exc = cleared_exc := by
  rcases read_auto_exc_or c io_line with h2 | h2 <;> rw [h2]
  · exact h
  · rw [file_poll_fst]
    unfold file_poll_advance
    simp [h, cleared_exc, exc_clear]

theorem file_poll_non_exc (c : Console) :
    non_exc (file_poll c).1 = non_exc c := by
  rw [file_poll_fst]
  unfold file_poll_advance
  repeat' split
  all_goals
    first
    | (rw [cycle_judgment_non_exc]; rfl)
    | simp_all [non_exc, exc_clear]

theorem file_poll_status (c : Console) :
    ((file_poll c).1).status = c.status := by
  have h := file_poll_non_exc c
  unfold non_exc at h
  exact congrArg Prod.fst h

theorem file_read_eq (c : Console) (i : Nat) (g : GenericCmd) (b : Bool)
    (hcur : read_cursor c = some (i, g))
    (hic : input_check (input_parse g.text) = .ok b) :
    (file_read c).2 = .ok (input_parse g.text) ∧
    (c.status.current = ConsoleStatus.insAcqFromTerminal →
      (file_read c).1.current_ins = some (input_parse g.text)) ∧
    (c.status.current ≠ ConsoleStatus.insAcqFromTerminal →
      (file_read c).1.current_cmd = some (input_parse g.text)) := by
  unfold file_read
  rw [hcur]
  simp only [hic]
  have hst : ((file_poll c).1).status.current = c.status.current := by
    rw [file_poll_status]
  cases h5 : c.status.current <;> simp [hst, h5]

theorem terminal_read_eq (c : Console) (raw : String) (b : Bool)
    (hic : input_check (input_parse raw) = .ok b) :
    (terminal_read c (some raw)).2 = .ok (input_parse raw) ∧
    (c.status.current = ConsoleStatus.insAcqFromTerminal →
      (terminal_read c (some raw)).1.current_ins = some (input_parse raw)) ∧
    (c.status.current ≠ ConsoleStatus.insAcqFromTerminal →
      (terminal_read c (some raw)).1.current_cmd = some (input_parse raw)) := by
  unfold terminal_read
  simp only [hic]
  cases h5 : c.status.current <;> simp [h5]

theorem file_poll_seed (c : Console) (a : ExecuteAssets)
    (hins : c.auto_exc.next_exc_ins = none)
    (hcmd : c.auto_exc.next_exc_cmd = none)
    (hhead : c.auto_exc.exc_ins_assets[0]? = some a) :
    file_poll c =
      ({ c with auto_exc := { c.auto_exc with next_exc_ins := some (0, a.exc_ins) } },
       .ok a.exc_ins.text) := by
  unfold file_poll file_poll_advance
  simp [hins, hcmd, hhead]

theorem cycle_judgment_cycle_times (c : Console)
    (hne : c.auto_exc.exc_ins_assets ≠ []) :
    ((cycle_judgment c).1).auto_exc.cycle_times =
      Option.map (fun n => n - 1) c.auto_exc.cycle_times := by
  unfold cycle_judgment
  cases hct : c.auto_exc.cycle_times with
  | none => simp [hct]
  | some t =>
    by_cases ht : t - 1 = 0
    · simp [hct, ht]
    · cases hl : c.auto_exc.exc_ins_assets with
      | nil => exact absurd hl hne
      | cons a as => simp [hct, ht, hl]

theorem file_import_cursor_inv (c : Console) (io_line : Option String)
    (fs_content : Option String) (parse : String → Option ExecuteFile) :
    cursor_inv ((file_import c io_line fs_content parse).1).auto_exc = true := by
  simp only [file_import]
  rcases hr : read (exc_clear c) io_line with ⟨c1, r1⟩
  have hc1 : cursor_inv c1.auto_exc = true := by
    have h := read_cursor_inv (exc_clear c) io_line (by simp [exc_clear, cursor_inv])
    rw [hr] at h
    exact h
  cases r1 with
  | error e => simpa using hc1
  | ok addr =>
    cases fs_content with
    | none => simpa using hc1
    | some context =>
      cases hp : parse context with
      | none => simpa [hp] using hc1
      | some parsed =>
        simp only [hp]
        rcases hpoll : file_poll
            { status := c1.status,
              check := { read_valid := true, import_valid := c1.check.import_valid,
                         file_valid := true },
              interact := c1.interact, auto_exc := parsed,
              current_ins := c1.current_ins, current_cmd := c1.current_cmd }
          with ⟨c5, r5⟩
        have h5 : cursor_inv c5.auto_exc = true := by
          have h6 := file_poll_cursor_inv
            { status := c1.status,
              check := { read_valid := true, import_valid := c1.check.import_valid,
                         file_valid := true },
              interact := c1.interact, auto_exc := parsed,
              current_ins := c1.current_ins, current_cmd := c1.current_cmd }
          rw [hpoll] at h6
          exact h6
        cases r5 with
        | error e => simpa using h5
        | ok a => simpa [refresh_auto_exc] using h5

/-!
Claim theorems.
-/

/-- Claim C1, counterexample: over the tree `[A [a1, a2], B]` with
`cycle_count = 2`, successive `file_poll` calls from an empty cursor do NOT
yield the claimed value sequence `a1, a2, B, A, a1, a2, B`: the very first
call returns `A` (the seeding step), and the stale sub-command cursor later
derails the traversal. -/
theorem c1_claimed_sequence_refuted :
    poll_results c1Console 7 ≠
      [Except.ok "a1", Except.ok "a2", Except.ok "B", Except.ok "A",
       Except.ok "a1", Except.ok "a2", Except.ok "B"] := by
  intro h
  have h0 : poll_results c1Console 7 =
      Except.ok "A" :: poll_results (file_poll c1Console).1 6 := rfl
  rw [h0] at h
  simp at h

/-- Claim C1, amended: over the tree `[A [a1, a2], B]` with `cycle_count = 2`,
successive `file_poll` calls from an empty cursor yield `A` (cursor seeding),
`a1`, `a2`, then `a2` again — advancing past the last sub-command moves the
instruction cursor to `B` but leaves the sub-command cursor stale — and the
fifth call fails with the sub-command-set-lost corruption error, clearing the
whole tree; the cycle count is still untouched (`2`) after four calls and is
never decremented; the sixth call fails with the seed-failure corruption
error because the tree is now empty. -/
theorem c1_actual_sequence :
    poll_results c1Console 6 =
      [Except.ok "A", Except.ok "a1", Except.ok "a2", Except.ok "a2",
       Except.error (.redaction err_sub_lost),
       Except.error (.redaction err_seed_fail)] ∧
    (poll_iter c1Console 4).auto_exc.cycle_times = some 2 ∧
    (poll_iter c1Console 5).auto_exc = cleared_exc :=
  ⟨rfl, rfl, rfl⟩

/-- Claim C2: with both cursors set — instruction cursor at `A` (index 0),
sub-command cursor at `a2` (index 1, the last sub-command) — and `B` existing
at index 1, `file_poll` advances the instruction cursor to `tree[1]` but does
NOT clear the sub-command cursor: it stays `Some((1, a2))`, and the call even
returns the stale `a2`.  (src/src/lib.rs lines 405-412 never assign
`next_exc_cmd = None`, unlike the end-of-traversal branch at line 416.) -/
theorem c2_sub_cursor_not_cleared :
    (file_poll c2Console).1.auto_exc.next_exc_ins =
      some (1, GenericCmd.character "B") ∧
    (file_poll c2Console).1.auto_exc.next_exc_cmd =
      some (1, GenericCmd.character "a2") ∧
    (file_poll c2Console).2 = Except.ok "a2" :=
  ⟨rfl, rfl, rfl⟩

/-- Claim C3: for every starting console — any status, validity flags and
cursor — `refresh` never returns with current status `Invaild`; whenever the
raw transition result is `Invaild`, the same refresh call converts it to
`InsAcqFromTerminal` and resets both prompts. -/
theorem c3_refresh_never_invaild (c : Console) :
    (refresh c).status.current ≠ ConsoleStatus.invaild ∧
    ((refresh_raw c).2 = ConsoleStatus.invaild →
      (refresh c).status.current = ConsoleStatus.insAcqFromTerminal ∧
      (refresh c).interact.mian_prompt = "> " ∧
      (refresh c).interact.sub_prompt = "") := by
  obtain ⟨⟨cur, prev⟩, ⟨rv, iv, fv⟩, inter, ⟨fa, assets, ct, nei, nec⟩, ci, cc⟩ := c
  cases cur <;> cases nei <;> cases nec <;> cases rv <;> cases fv <;>
    simp [refresh, refresh_raw, check_reset, prompt_clear]

/-- Claim C3 witness: a console sitting in `InsAcqFromTerminal` with
`read_valid` false transitions raw to `Invaild`, and refresh lands on
`InsAcqFromTerminal` with the prompts reset. -/
theorem c3_refresh_never_invaild_witness :
    (refresh { Console.new with status :=
        { current := ConsoleStatus.insAcqFromTerminal,
          previous := ConsoleStatus.invaild } }).status.current =
      ConsoleStatus.insAcqFromTerminal ∧
    (refresh { Console.new with status :=
        { current := ConsoleStatus.insAcqFromTerminal,
          previous := ConsoleStatus.invaild } }).interact.mian_prompt = "> " ∧
    (refresh { Console.new with status :=
        { current := ConsoleStatus.insAcqFromTerminal,
          previous := ConsoleStatus.invaild } }).interact.sub_prompt = "" :=
  (c3_refresh_never_invaild _).2 rfl

/-- Claim C4, counterexample: a successful `file_read` in the acquisition
status `InsAcqFromFile` stores the accepted text `A` as the current COMMAND,
not the current instruction — refuting "stored as the current instruction if
the current status is an acquisition status". -/
theorem c4_counterexample :
    c4Console.status.current = ConsoleStatus.insAcqFromFile ∧
    (file_read c4Console).2 = Except.ok "A" ∧
    (file_read c4Console).1.current_ins = none ∧
    (file_read c4Console).1.current_cmd = some "A" :=
  ⟨rfl, rfl, rfl, rfl⟩

/-- Claim C4, amended: for every successful read (`terminal_read` or
`file_read`), the accepted text is stored as the current instruction iff the
current status is `InsAcqFromTerminal` (both read functions test exactly that
one status, src/src/lib.rs lines 207 and 253); in every other status —
including the acquisition status `InsAcqFromFile` — it is stored as the
current command. -/
theorem c4_stores_by_terminal_status (c : Console) (io_line : Option String)
    (s : String) :
    ((terminal_read c io_line).2 = .ok s →
       (if c.status.current = ConsoleStatus.insAcqFromTerminal
        then (terminal_read c io_line).1.current_ins = some s
        else (terminal_read c io_line).1.current_cmd = some s)) ∧
    ((file_read c).2 = .ok s →
       (if c.status.current = ConsoleStatus.insAcqFromTerminal
        then (file_read c).1.current_ins = some s
        else (file_read c).1.current_cmd = some s)) := by
  constructor
  · intro h
    cases io_line with
    | none => exact absurd h (by simp [terminal_read])
    | some raw =>
      cases hic : input_check (input_parse raw) with
      | error e =>
        exfalso
        unfold terminal_read at h
        simp [hic] at h
      | ok b =>
        have hmain := terminal_read_eq c raw b hic
        have hs : input_parse raw = s := by
          have h2 := hmain.1
          rw [h] at h2
          exact (Except.ok.inj h2).symm
        by_cases hst : c.status.current = ConsoleStatus.insAcqFromTerminal
        · rw [if_pos hst, ← hs]; exact hmain.2.1 hst
        · rw [if_neg hst, ← hs]; exact hmain.2.2 hst
  · intro h
    cases hcur : read_cursor c with
    | none =>
      exfalso
      unfold file_read at h
      simp [hcur] at h
    | some v =>
      obtain ⟨i, g⟩ := v
      cases hic : input_check (input_parse g.text) with
      | error e =>
        exfalso
        unfold file_read at h
        simp [hcur, hic] at h
      | ok b =>
        have hmain := file_read_eq c i g b hcur hic
        have hs : input_parse g.text = s := by
          have h2 := hmain.1
          rw [h] at h2
          exact (Except.ok.inj h2).symm
        by_cases hst : c.status.current = ConsoleStatus.insAcqFromTerminal
        · rw [if_pos hst, ← hs]; exact hmain.2.1 hst
        · rw [if_neg hst, ← hs]; exact hmain.2.2 hst

/-- Claim C4 witness: the console of the counterexample — in
`InsAcqFromFile` — successfully reads `A` from the file cursor and stores it
as the current command. -/
theorem c4_stores_witness :
    (file_read c4Console).2 = Except.ok "A" ∧
    (file_read c4Console).1.current_cmd = some "A" :=
  ⟨rfl, by simpa using (c4_stores_by_terminal_status c4Console none "A").2 rfl⟩

/-- Claim C6: `input_check` succeeds exactly on non-empty strings whose
characters are all alphanumeric or one of `. + - | @ space`, and every
failure is the invalid-input (`InvalidHeader`) error. -/
theorem c6_input_check_characterization (s : String) :
    ((input_check s).isOk = true ↔
      (s ≠ "" ∧ ∀ ch ∈ s.data,
        (ch.isAlphanum = true ∨ ch = '.' ∨ ch = '+' ∨ ch = '-' ∨
         ch = '|' ∨ ch = '@' ∨ ch = ' '))) ∧
    ((input_check s).isOk = false →
      input_check s = .error (.invalidHeader "specified command characters"
                                             "invalid characters")) := by
  have hiff : (!(s.data.all allowed_char) || decide (s = "")) = false ↔
      (s ≠ "" ∧ ∀ ch ∈ s.data,
        (ch.isAlphanum = true ∨ ch = '.' ∨ ch = '+' ∨ ch = '-' ∨
         ch = '|' ∨ ch = '@' ∨ ch = ' ')) := by
    simp only [Bool.or_eq_false_iff, Bool.not_eq_false', List.all_eq_true,
      decide_eq_false_iff_not, allowed_char, Bool.or_eq_true, decide_eq_true_eq]
    constructor
    · rintro ⟨h1, h2⟩
      exact ⟨h2, fun ch hch => by have := h1 ch hch; tauto⟩
    · rintro ⟨h1, h2⟩
      exact ⟨fun ch hch => by have := h2 ch hch; tauto, h1⟩
  cases hb : (!(s.data.all allowed_char) || decide (s = "")) with
  | true =>
    have hc : input_check s = .error (.invalidHeader "specified command characters"
        "invalid characters") := by
      unfold input_check
      simp [hb]
    rw [hc]
    constructor
    · rw [← hiff, hb]
      simp [Except.isOk, Except.toBool]
    · intro _; rfl
  | false =>
    have hc : input_check s = .ok true := by
      unfold input_check
      simp [hb]
    rw [hc]
    constructor
    · rw [← hiff, hb]
      simp [Except.isOk, Except.toBool]
    · intro h
      simp [Except.isOk, Except.toBool] at h

/-- Claim C6 witness: `ab.c 1+2` is accepted; the empty string is rejected
with the invalid-input error. -/
theorem c6_input_check_witness :
    (input_check "ab.c 1+2").isOk = true ∧
    input_check "" = .error (.invalidHeader "specified command characters"
                                            "invalid characters") :=
  ⟨(c6_input_check_characterization "ab.c 1+2").1.mpr (by decide),
   (c6_input_check_characterization "").2 (by decide)⟩

/-- Claim C7: starting from a freshly created console, `setup()` followed by
one successful terminal read of a valid command produces exactly the status
sequence `Invaild → InsAcqFromTerminal → InsExecFromTerminal`, and the read
returns the parsed input. -/
theorem c7_setup_read_status_sequence (input : String)
    (h : input_check (input_parse input) = .ok true) :
    Console.new.status.current = ConsoleStatus.invaild ∧
    (setup Console.new).status.current = ConsoleStatus.insAcqFromTerminal ∧
    (read (setup Console.new) (some input)).1.status.current =
      ConsoleStatus.insExecFromTerminal ∧
    (read (setup Console.new) (some input)).2 = .ok (input_parse input) := by
  refine ⟨rfl, rfl, ?_, ?_⟩ <;>
    simp [read, setup, refresh, refresh_raw, check_reset, prompt_clear,
      Console.new, terminal_read, h]

/-- Claim C7 witness: the valid command `run tests` drives the fresh console
through `Invaild → InsAcqFromTerminal → InsExecFromTerminal`. -/
theorem c7_witness :
    input_check (input_parse "run tests") = .ok true ∧
    (read (setup Console.new) (some "run tests")).1.status.current =
      ConsoleStatus.insExecFromTerminal ∧
    (read (setup Console.new) (some "run tests")).2 = .ok (input_parse "run tests") :=
  ⟨rfl, (c7_setup_read_status_sequence "run tests" rfl).2.2.1,
   (c7_setup_read_status_sequence "run tests" rfl).2.2.2⟩

/-- Claim C5: whenever `file_import` gets as far as parsing (the file-address
read succeeded) and the contents fail to parse, it returns the
malformed-automation error and leaves the tree cleared: empty instruction
list, both cursor fields `none`, and no cycle count. -/
theorem c5_import_parse_failure_clears_tree (c : Console) (io_line : Option String)
    (content : String) (parse : String → Option ExecuteFile)
    (hread : ((read (exc_clear c) io_line).2).isOk = true)
    (hparse : parse content = none) :
    (file_import c io_line (some content) parse).2 =
      .error (.redaction err_malformed) ∧
    (file_import c io_line (some content) parse).1.auto_exc.exc_ins_assets = [] ∧
    (file_import c io_line (some content) parse).1.auto_exc.next_exc_ins = none ∧
    (file_import c io_line (some content) parse).1.auto_exc.next_exc_cmd = none ∧
    (file_import c io_line (some content) parse).1.auto_exc.cycle_times = none := by
  have hcl : ((read (exc_clear c) io_line).1).auto_exc = cleared_exc :=
    read_cleared (exc_clear c) io_line rfl
  simp only [file_import]
  rcases hr : read (exc_clear c) io_line with ⟨c1, r1⟩
  rw [hr] at hcl hread
  cases r1 with
  | error e => simp [Except.isOk, Except.toBool] at hread
  | ok addr =>
    have hcl2 : c1.auto_exc = cleared_exc := hcl
    refine ⟨?_, ?_, ?_, ?_, ?_⟩ <;> simp [hparse, hcl2, cleared_exc]

/-- Claim C5 witness: importing with a parser that always fails, after a
fresh setup and a valid path read, yields the malformed-automation error and
an empty tree. -/
theorem c5_import_witness :
    ((read (exc_clear (setup Console.new)) (some "path")).2).isOk = true ∧
    (file_import (setup Console.new) (some "path") (some "x")
        (fun _ => none)).2 = .error (.redaction err_malformed) ∧
    (file_import (setup Console.new) (some "path") (some "x")
        (fun _ => none)).1.auto_exc.exc_ins_assets = [] :=
  ⟨rfl,
   (c5_import_parse_failure_clears_tree (setup Console.new) (some "path") "x"
     (fun _ => none) rfl rfl).1,
   (c5_import_parse_failure_clears_tree (setup Console.new) (some "path") "x"
     (fun _ => none) rfl rfl).2.1⟩

/-- Claim C8: after a `file_import` that parses to a tree with a first
instruction and empty cursors, succeeds, and lands in `InsAcqFromFile`
status, the first `read()` returns the FIRST instruction's text — the
pre-population poll during import primes the cursor one step ahead of the
first consumption, not two. -/
theorem c8_import_then_first_read (c : Console) (io_line io_line2 : Option String)
    (content : String) (parse : String → Option ExecuteFile)
    (ef : ExecuteFile) (a : ExecuteAssets)
    (hparse : parse content = some ef)
    (hins : ef.next_exc_ins = none) (hcmd : ef.next_exc_cmd = none)
    (hhead : ef.exc_ins_assets[0]? = some a)
    (hok : (file_import c io_line (some content) parse).2 = .ok ())
    (hstatus : (file_import c io_line (some content) parse).1.status.current =
      ConsoleStatus.insAcqFromFile)
    (hcheck : input_check (input_parse a.exc_ins.text) = .ok true) :
    (read (file_import c io_line (some content) parse).1 io_line2).2 =
      .ok (input_parse a.exc_ins.text) := by
  have key : (file_import c io_line (some content) parse).1.auto_exc.next_exc_ins =
        some (0, a.exc_ins) ∧
      (file_import c io_line (some content) parse).1.auto_exc.next_exc_cmd = none := by
    simp only [file_import] at hok ⊢
    rcases hr : read (exc_clear c) io_line with ⟨c1, r1⟩
    rw [hr] at hok
    cases r1 with
    | error e => simp at hok
    | ok addr =>
      simp only [hparse]
      have hseed := file_poll_seed
        { status := c1.status,
          check := { read_valid := true, import_valid := c1.check.import_valid,
                     file_valid := true },
          interact := c1.interact, auto_exc := ef,
          current_ins := c1.current_ins, current_cmd := c1.current_cmd }
        a hins hcmd hhead
      simp only [hseed, refresh_auto_exc]
      simp [hcmd]
  obtain ⟨hci, hcc⟩ := key
  have hcur : read_cursor (file_import c io_line (some content) parse).1 =
      some (0, a.exc_ins) := by
    unfold read_cursor
    rw [hstatus]
    simpa using hci
  have hread := file_read_eq (file_import c io_line (some content) parse).1
    0 a.exc_ins true hcur hcheck
  unfold read
  rw [hstatus]
  simpa using hread.1

/-- Claim C8 witness: importing the one-instruction tree `[A]` from
`InsExecFromTerminal` succeeds, lands in `InsAcqFromFile`, and the first
read returns `A`. -/
theorem c8_import_witness :
    (file_import c8Console (some "f.toml") (some "x") (fun _ => some c8File)).2 =
      .ok () ∧
    (read (file_import c8Console (some "f.toml") (some "x")
        (fun _ => some c8File)).1 none).2 = .ok "A" :=
  ⟨rfl,
   c8_import_then_first_read c8Console (some "f.toml") none "x"
     (fun _ => some c8File) c8File
     { exc_ins := .character "A", sub_cmd_assets := none }
     rfl rfl rfl rfl rfl rfl rfl⟩

/-- Claim C9: the cursor invariant — the sub-command cursor is `Some` only
when the instruction cursor is also `Some` — is preserved by `file_poll`,
`exc_clear`, `read` and `file_import`; and when `file_poll` observes the
contradictory configuration (sub-command cursor `Some`, instruction cursor
`None`) it fails with the instruction-lost corruption error and clears the
cursor (indeed the whole tree, via `exc_clear`). -/
theorem c9_cursor_invariant (c : Console) (io_line : Option String)
    (fs_content : Option String) (parse : String → Option ExecuteFile)
    (x : Nat × GenericCmd) :
    (cursor_inv c.auto_exc = true →
      cursor_inv ((file_poll c).1).auto_exc = true ∧
      cursor_inv (exc_clear c).auto_exc = true ∧
      cursor_inv ((read c io_line).1).auto_exc = true ∧
      cursor_inv ((file_import c io_line fs_content parse).1).auto_exc = true) ∧
    (c.auto_exc.next_exc_ins = none → c.auto_exc.next_exc_cmd = some x →
      file_poll c = (exc_clear c, .error (.redaction err_ins_lost)) ∧
      (file_poll c).1.auto_exc.next_exc_ins = none ∧
      (file_poll c).1.auto_exc.next_exc_cmd = none) := by
  constructor
  · intro h
    exact ⟨file_poll_cursor_inv c, by simp [exc_clear, cursor_inv],
      read_cursor_inv c io_line h,
      file_import_cursor_inv c io_line fs_content parse⟩
  · intro hins hcmd
    have hpoll : file_poll c = (exc_clear c, .error (.redaction err_ins_lost)) := by
      unfold file_poll file_poll_advance
      rw [hins, hcmd]
    exact ⟨hpoll, by rw [hpoll]; rfl, by rw [hpoll]; rfl⟩

/-- Claim C9 witness: the invariant holds after polling the well-formed
`c1Console`, and polling the contradictory `c9BadConsole` (sub-command
cursor without instruction cursor) yields the corruption error with the
cursor cleared. -/
theorem c9_cursor_invariant_witness :
    cursor_inv ((file_poll c1Console).1).auto_exc = true ∧
    file_poll c9BadConsole =
      (exc_clear c9BadConsole, .error (.redaction err_ins_lost)) :=
  ⟨((c9_cursor_invariant c1Console none none (fun _ => none)
      (0, .character "x")).1 rfl).1,
   ((c9_cursor_invariant c9BadConsole none none (fun _ => none)
      (0, .character "a1")).2 rfl rfl).1⟩

/-- Claim C10: when `cycle_times`, if present, is at least 1 (as the
schema's positive-cycle-count requirement guarantees), the `cycle_times - 1`
subtraction the cycle policy performs on exhaustion never underflows — and
whenever a subtraction site is actually reached, the cycle count is exactly
decremented by one. -/
theorem c10_cycle_subtraction_safe (c : Console)
    (h : ∀ n, c.auto_exc.cycle_times = some n → 1 ≤ n) :
    file_poll_underflows c.auto_exc = false ∧
    (cycle_dec_reached c.auto_exc = true →
      ((file_poll_advance c).1).auto_exc.cycle_times =
        Option.map (fun n => n - 1) c.auto_exc.cycle_times) := by
  constructor
  · unfold file_poll_underflows
    cases hct : c.auto_exc.cycle_times with
    | none => simp
    | some n =>
      have hn : n ≠ 0 := Nat.one_le_iff_ne_zero.mp (h n hct)
      simp [hn]
  · intro hreach
    unfold cycle_dec_reached at hreach
    rcases hni : c.auto_exc.next_exc_ins with _ | ⟨i, gi⟩
    · simp only [hni] at hreach
      cases hcm : c.auto_exc.next_exc_cmd <;> simp [hcm] at hreach
    · cases hcm : c.auto_exc.next_exc_cmd with
      | none =>
        simp only [hni, hcm] at hreach
        cases hg : c.auto_exc.exc_ins_assets.get? i with
        | none => simp only [hg] at hreach; simp at hreach
        | some ea =>
          simp only [hg, Bool.and_eq_true, Option.isNone_iff_eq_none] at hreach
          obtain ⟨hsub, hnext⟩ := hreach
          have hne : c.auto_exc.exc_ins_assets ≠ [] := by
            intro hnil
            rw [hnil] at hg
            simp at hg
          unfold file_poll_advance
          simp only [hni, hcm, hg, hsub, hnext]
          rw [cycle_judgment_cycle_times]
          exact hne
      | some v =>
        obtain ⟨j, gj⟩ := v
        simp only [hni, hcm] at hreach
        cases hg : c.auto_exc.exc_ins_assets.get? i with
        | none => simp only [hg] at hreach; simp at hreach
        | some ea =>
          simp only [hg] at hreach
          cases hsub : ea.sub_cmd_assets with
          | none => simp only [hsub] at hreach; simp at hreach
          | some subs =>
            simp only [hsub, Bool.and_eq_true, Option.isNone_iff_eq_none] at hreach
            obtain ⟨hj, hnext⟩ := hreach
            have hne : c.auto_exc.exc_ins_assets ≠ [] := by
              intro hnil
              rw [hnil] at hg
              simp at hg
            unfold file_poll_advance
            simp only [hni, hcm, hg, hsub, hj, hnext]
            rw [cycle_judgment_cycle_times]
            exact hne

/-- Claim C10 witness: `c10Console` (single instruction `B`, `cycle_times =
1`, cursor on `B`) reaches the subtraction site; the subtraction does not
underflow and the cycle count drops from `Some 1` to `Some 0`. -/
theorem c10_cycle_witness :
    cycle_dec_reached c10Console.auto_exc = true ∧
    file_poll_underflows c10Console.auto_exc = false ∧
    ((file_poll_advance c10Console).1).auto_exc.cycle_times = some 0 :=
  ⟨rfl,
   (c10_cycle_subtraction_safe c10Console
     (by intro n hn; simp [c10Console, Console.new] at hn; omega)).1,
   by
     have h2 := (c10_cycle_subtraction_safe c10Console
       (by intro n hn; simp [c10Console, Console.new] at hn; omega)).2 rfl
     simpa [c10Console, Console.new] using h2⟩

end Rfcaf
